import Mathlib

/-!
Verification of the budget-lifecycle and forecasting core of the Prosper
repository (Express/Mongoose personal-finance app).

The JavaScript source is shallowly embedded: monetary values (JS numbers
holding currency amounts) are modelled as exact rationals `ℚ`, dates as
proleptic-Gregorian calendar triples compared by their day serial (JS
`Date` objects compare by timestamp; the server is modelled as running in
UTC, so `toISOString`, `getMonth` and friends agree with the calendar
fields), and JS `null`/`undefined` returns as `Option`.  Fallible
evaluation (an unbound identifier raising `ReferenceError`) is returned as
`Except`.  `Math.round` is half-up rounding (`⌊x + 1/2⌋`), `Math.ceil` is
`⌈x⌉`.
-/

namespace Prosper

/-- JS `Math.round`: rounds half toward positive infinity. -/
def jsRound (q : ℚ) : ℤ := ⌊q + 1/2⌋

/-- Rounding a monetary value to 2 decimal places at the point of output:
`Math.round(x * 100) / 100`. -/
def round2 (q : ℚ) : ℚ := (jsRound (q * 100) : ℚ) / 100

/-! ## Calendar

Dates are proleptic-Gregorian triples.  `month` is 0-based (`Fin 12`),
matching JS `Date.getMonth()`; `day` is 1-based, matching `getDate()`. -/

/-- Calendar date as stored in a JS `Date` (UTC): year, 0-based month,
1-based day of month. -/
structure YMD where
  year : Nat
  month : Fin 12
  day : Nat
deriving DecidableEq, Repr

/-- Gregorian leap-year rule. -/
def isLeapYear (y : Nat) : Bool := (y % 4 == 0 && y % 100 != 0) || y % 400 == 0

/-- Number of days in a month (`m` is 0-based). -/
def daysInMonth (y : Nat) (m : Fin 12) : Nat :=
  if m.val = 1 then (if isLeapYear y then 29 else 28)
  else if m.val = 3 ∨ m.val = 5 ∨ m.val = 8 ∨ m.val = 10 then 30
  else 31

/-- The calendar month after `(y, m)`. -/
def nextMonth (y : Nat) (m : Fin 12) : Nat × Fin 12 :=
  if h : m.val = 11 then (y + 1, ⟨0, by omega⟩) else (y, ⟨m.val + 1, by omega⟩)

/-- Successor day, rolling over month and year boundaries (the
normalisation JS `Date` performs on `setDate(getDate() + 1)`). -/
def nextDay (d : YMD) : YMD :=
  if d.day < daysInMonth d.year d.month then { d with day := d.day + 1 }
  else
    let ym := nextMonth d.year d.month
    ⟨ym.1, ym.2, 1⟩

/-- Adds `n` days to a date. -/
def addDays (n : Nat) (d : YMD) : YMD := Nat.rec d (fun _ acc => nextDay acc) n

/-- JS `d.setMonth(d.getMonth() + i)`: the (year, month) pair advances by
`i` with year carry, the day of month is kept and then normalised into the
following month if it exceeds the target month's length (a real date's day
is at most 31, so at most one month of overflow occurs). -/
def jsSetMonth (d : YMD) (i : Nat) : YMD :=
  let total := d.year * 12 + d.month.val + i
  let y := total / 12
  let m : Fin 12 := ⟨total % 12, Nat.mod_lt _ (by omega)⟩
  if d.day ≤ daysInMonth y m then ⟨y, m, d.day⟩
  else
    let ym := nextMonth y m
    ⟨ym.1, ym.2, d.day - daysInMonth y m⟩

/-- Serial number of a date that is monotone in calendar order for real
dates (day ≤ 31): used to model comparison of JS `Date` timestamps. -/
def ymdSerial (d : YMD) : Nat := (d.year * 12 + d.month.val) * 32 + d.day

/-- Year-month pair: the "YYYY-MM" label a bucket is keyed by
(`date.toISOString().substring(0, 7)`). -/
structure YM where
  year : Nat
  month : Fin 12
deriving DecidableEq, Repr

/-- Numeric key of a year-month label; the lexicographic order of the
zero-padded "YYYY-MM" strings (what `localeCompare` sorts by) coincides
with the numeric order of this key. -/
def YM.toKey (a : YM) : Nat := a.year * 12 + a.month.val

/-- Order on year-month labels, as compared by `localeCompare` on the
"YYYY-MM" strings. -/
def ymLe (a b : YM) : Prop := a.toKey ≤ b.toKey

/-- Strict version of `ymLe`. -/
def ymLt (a b : YM) : Prop := a.toKey < b.toKey

instance : DecidableRel ymLe := fun a b => inferInstanceAs (Decidable (a.toKey ≤ b.toKey))

instance : DecidableRel ymLt := fun a b => inferInstanceAs (Decidable (a.toKey < b.toKey))

instance : IsTotal YM ymLe := ⟨fun a b => Nat.le_total a.toKey b.toKey⟩

instance : IsTrans YM ymLe := ⟨fun _ _ _ h₁ h₂ => Nat.le_trans h₁ h₂⟩

instance : IsAntisymm YM ymLe :=
  ⟨fun a b h₁ h₂ => by
    obtain ⟨ya, ma⟩ := a
    obtain ⟨yb, mb⟩ := b
    simp only [ymLe, YM.toKey] at h₁ h₂
    have hma := ma.isLt
    have hmb := mb.isLt
    have : ya = yb ∧ ma.val = mb.val := by omega
    simp [this.1, Fin.ext this.2]⟩

/-! ## Monthly aggregator (`groupTransactionsByMonth`, forecasts.js) -/

/-- Transaction type; the source branches on `type === 'income'`, all
other completed transactions count as expenses. -/
inductive TxType where
  | income
  | expense
deriving DecidableEq, Repr

/-- The fields of a stored transaction the aggregator reads. -/
structure Tx where
  date : YMD
  type : TxType
  amount : ℚ
deriving DecidableEq, Repr

/-- Month key of a transaction:
`transaction.date.toISOString().substring(0, 7)`. -/
def monthKey (t : Tx) : YM := ⟨t.date.year, t.date.month⟩

/-- One month's aggregate, the value part of the `monthlyData` object. -/
structure MonthBucket where
  income : ℚ
  expenses : ℚ
  net : ℚ
deriving DecidableEq, Repr

/-- One step of the aggregation loop body: adds a transaction's amount to
income or expenses by type, then recomputes `net = income - expenses`. -/
def applyTx (b : MonthBucket) (t : Tx) : MonthBucket :=
  let b' :=
    if t.type = TxType.income then { b with income := b.income + t.amount }
    else { b with expenses := b.expenses + t.amount }
  { b' with net := b'.income - b'.expenses }

/-- Aggregate value stored under key `k` after the loop over all
transactions (the JS object maps each present key to exactly this fold,
since updates to other keys do not touch the entry at `k`). -/
def bucketFold (ts : List Tx) (k : YM) : MonthBucket :=
  ts.foldl (fun b t => if monthKey t = k then applyTx b t else b) ⟨0, 0, 0⟩

/-- Keys present in the `monthlyData` object (one per distinct month of
the input), sorted as by `.sort((a, b) => a.month.localeCompare(b.month))`. -/
def monthKeys (ts : List Tx) : List YM :=
  ((ts.map monthKey).dedup).insertionSort ymLe

/-- One row of the aggregator's output: `{ month, income, expenses, net }`. -/
structure MonthRow where
  month : YM
  income : ℚ
  expenses : ℚ
  net : ℚ
deriving DecidableEq, Repr

/-- Embedding of `groupTransactionsByMonth` (forecasts.js lines 275-297):
builds per-month buckets keyed by "YYYY-MM", then emits
`Object.entries(monthlyData)` sorted by month label. -/
def groupTransactionsByMonth (ts : List Tx) : List MonthRow :=
  (monthKeys ts).map fun k =>
    let b := bucketFold ts k
    ⟨k, b.income, b.expenses, b.net⟩

/-! ## Simple moving-average forecast (`generateSimpleMovingAverageForecast`)

The source computes trailing-6 averages into `avgIncome`/`avgExpenses`,
but the loop body reads the identifiers `weightedIncome` and
`weightedExpenses`, which are bound nowhere in the module, in its imports,
or on the global object (and `generateWeightedMovingAverageForecast`,
called for the `weighted` method, is likewise undefined).  Evaluating an
unbound identifier in JS raises a `ReferenceError`, so the first loop
iteration faults.  The embedding makes the failing lookup explicit. -/

/-- Runtime error raised by JS evaluation: evaluating an identifier that
is not bound in any enclosing scope. -/
inductive JsError where
  | referenceError (name : String)
deriving DecidableEq, Repr

/-- Forecast point shape pushed by the flat-average strategies. -/
structure ForecastPoint where
  month : YM
  income : ℚ
  expenses : ℚ
  net : ℚ
deriving DecidableEq, Repr

/-- JS `array.slice(-6)`: the trailing 6 elements (all of them if fewer). -/
def sliceLast6 (l : List MonthRow) : List MonthRow := l.drop (l.length - 6)

/-- Loop of `generateSimpleMovingAverageForecast`: for `i = 1 .. months`
the body pushes an object whose `income` field evaluates the unbound
identifier `weightedIncome`, so the first iteration (if any) raises. -/
def simpleForecastLoop : Nat → Except JsError (List ForecastPoint)
  | 0 => Except.ok []
  | _ + 1 => Except.error (JsError.referenceError "weightedIncome")

/-- Embedding of `generateSimpleMovingAverageForecast` (forecasts.js lines
299-321).  The trailing-6 averages are computed exactly as in the source
(and, exactly as in the source, never consumed); the result is the
evaluation outcome of the push loop. -/
def generateSimpleMovingAverageForecast (monthlyData : List MonthRow) (months : Nat) :
    Except JsError (List ForecastPoint) :=
  let recentMonths := sliceLast6 monthlyData
  let _avgIncome := ((recentMonths.map MonthRow.income).sum) / (recentMonths.length : ℚ)
  let _avgExpenses := ((recentMonths.map MonthRow.expenses).sum) / (recentMonths.length : ℚ)
  simpleForecastLoop months

/-! ## Seasonal forecast (`calculateSeasonalFactors`, `generateSeasonalForecast`) -/

/-- Accumulator of the first loop of `calculateSeasonalFactors`: the
`monthlyAverages` arrays before the divide step, plus `monthlyCounts`. -/
structure SeasonalAcc where
  incomeSum : Fin 12 → ℚ
  expenseSum : Fin 12 → ℚ
  counts : Fin 12 → Nat

/-- One step of the accumulation loop of `calculateSeasonalFactors`. -/
def seasonalStep (a : SeasonalAcc) (r : MonthRow) : SeasonalAcc :=
  let i := r.month.month
  { incomeSum := Function.update a.incomeSum i (a.incomeSum i + r.income)
    expenseSum := Function.update a.expenseSum i (a.expenseSum i + r.expenses)
    counts := Function.update a.counts i (a.counts i + 1) }

/-- The per-calendar-month factors returned by `calculateSeasonalFactors`. -/
structure SeasonalFactors where
  income : Fin 12 → ℚ
  expenses : Fin 12 → ℚ

/-- Embedding of `calculateSeasonalFactors` (forecasts.js lines 355-385):
per calendar month, sum the bucket values and count the buckets
(`new Date(data.month + '-01').getMonth()` recovers the 0-based calendar
month of the label); divide sum by count where the count is positive; the
overall average divides the sum of the 12 entries by 12; each factor is
the entry over the overall average, defaulting to 1 when the overall
average is not positive. -/
def calculateSeasonalFactors (monthlyData : List MonthRow) : SeasonalFactors :=
  let a := monthlyData.foldl seasonalStep ⟨fun _ => 0, fun _ => 0, fun _ => 0⟩
  let avgIncome : Fin 12 → ℚ := fun i =>
    if 0 < a.counts i then a.incomeSum i / (a.counts i : ℚ) else a.incomeSum i
  let avgExpenses : Fin 12 → ℚ := fun i =>
    if 0 < a.counts i then a.expenseSum i / (a.counts i : ℚ) else a.expenseSum i
  let overallIncome := (∑ i : Fin 12, avgIncome i) / 12
  let overallExpenses := (∑ i : Fin 12, avgExpenses i) / 12
  { income := fun i => if 0 < overallIncome then avgIncome i / overallIncome else 1
    expenses := fun i => if 0 < overallExpenses then avgExpenses i / overallExpenses else 1 }

/-- Forecast point shape pushed by the seasonal strategy: the flat-average
fields plus the reported `seasonalFactor` pair. -/
structure SeasonalPoint where
  month : YM
  income : ℚ
  expenses : ℚ
  net : ℚ
  factorIncome : ℚ
  factorExpenses : ℚ
deriving DecidableEq, Repr

/-- Embedding of `generateSeasonalForecast` (forecasts.js lines 323-353).
`now` is the wall-clock date (`new Date()`).  For the i-th future month
the forecast value is `baseline * (factor || 1)` — the JS `|| 1` replaces
a falsy (zero) factor by 1 in the product — while the reported
`seasonalFactor` is the raw array entry. -/
def generateSeasonalForecast (monthlyData : List MonthRow) (months : Nat) (now : YMD) :
    List SeasonalPoint :=
  let seasonalFactors := calculateSeasonalFactors monthlyData
  let baselineIncome := ((monthlyData.map MonthRow.income).sum) / (monthlyData.length : ℚ)
  let baselineExpenses := ((monthlyData.map MonthRow.expenses).sum) / (monthlyData.length : ℚ)
  (List.range months).map fun j =>
    let forecastDate := jsSetMonth now (j + 1)
    let monthIndex := forecastDate.month
    let fInc := seasonalFactors.income monthIndex
    let fExp := seasonalFactors.expenses monthIndex
    let seasonalIncome := baselineIncome * (if fInc = 0 then 1 else fInc)
    let seasonalExpenses := baselineExpenses * (if fExp = 0 then 1 else fExp)
    { month := ⟨forecastDate.year, forecastDate.month⟩
      income := round2 seasonalIncome
      expenses := round2 seasonalExpenses
      net := round2 (seasonalIncome - seasonalExpenses)
      factorIncome := fInc
      factorExpenses := fExp }

/-! ## Budget model (models/Budget.js)

Only the fields the verified operations read or write are embedded. -/

/-- Budget status enum. -/
inductive BStatus where
  | active
  | paused
  | completed
  | exceeded
deriving DecidableEq, Repr

/-- Budget period kind enum. -/
inductive PeriodKind where
  | weekly
  | monthly
  | quarterly
  | yearly
deriving DecidableEq, Repr

/-- The `currentPeriod` subdocument. -/
structure CurrentPeriod where
  spent : ℚ
  remaining : ℚ
  transactionCount : Nat
  lastTransactionDate : Option YMD
  rolloverAmount : ℚ
deriving DecidableEq, Repr

/-- The `rollover` settings subdocument; `maxRolloverAmount` has no
default, so an absent value is `none`. -/
structure RolloverSettings where
  enabled : Bool
  carryOverUnused : Bool
  maxRolloverAmount : Option ℚ
deriving DecidableEq, Repr

/-- The `autoRenew` settings subdocument. -/
structure AutoRenewSettings where
  enabled : Bool
  adjustAmount : Bool
  adjustmentPercentage : ℚ
deriving DecidableEq, Repr

/-- One archived period in `history`. -/
structure HistoryEntry where
  period : String
  budgetAmount : ℚ
  actualSpent : ℚ
  variance : ℚ
  variancePercentage : ℚ
  transactionCount : Nat
  startDate : YMD
  endDate : YMD
  notes : String
deriving DecidableEq, Repr

/-- The slice of a Budget document the verified operations touch.
`lastCalculated` stands for `metadata.lastCalculated`. -/
structure Budget where
  amount : ℚ
  period : PeriodKind
  startDate : YMD
  endDate : YMD
  status : BStatus
  rollover : RolloverSettings
  autoRenew : AutoRenewSettings
  currentPeriod : CurrentPeriod
  history : List HistoryEntry
  lastCalculated : Option YMD
deriving DecidableEq, Repr

/-- Virtual `utilizationPercentage` (Budget.js lines 186-189): 0 when the
amount is falsy, else `Math.round(spent / amount * 100)`. -/
def utilizationPercentage (b : Budget) : ℤ :=
  if b.amount = 0 then 0
  else jsRound (b.currentPeriod.spent / b.amount * 100)

/-- Virtual `remainingAmount` (Budget.js lines 192-194):
`max(0, amount - spent + rolloverAmount)`. -/
def remainingAmount (b : Budget) : ℚ :=
  max 0 (b.amount - b.currentPeriod.spent + b.currentPeriod.rolloverAmount)

/-- Embedding of the `pre('save')` middleware (Budget.js lines 228-246):
recompute `currentPeriod.remaining`, re-derive `status` from utilization
and wall-clock time, stamp `metadata.lastCalculated`.  `now` is
`new Date()`. -/
def budgetPreSave (b : Budget) (now : YMD) : Budget :=
  let b := { b with currentPeriod := { b.currentPeriod with remaining := remainingAmount b } }
  let utilization := utilizationPercentage b
  let status :=
    if 100 ≤ utilization then BStatus.exceeded
    else if ymdSerial b.endDate < ymdSerial now then BStatus.completed
    else if b.status = BStatus.exceeded ∧ utilization < 100 then BStatus.active
    else b.status
  { b with status := status, lastCalculated := some now }

/-- Embedding of the instance method `addTransaction` (Budget.js lines
295-304), acting on an in-memory document: add the amount to `spent`,
bump `transactionCount`, stamp `lastTransactionDate`, recompute
`remaining = max(0, amount - spent)`.  The subsequent `save()` persists
the whole mutated document (a plain write of the record, modelled in the
race semantics below). -/
def addTransaction (b : Budget) (transactionAmount : ℚ) (now : YMD) : Budget :=
  let spent := b.currentPeriod.spent + transactionAmount
  { b with
    currentPeriod :=
      { b.currentPeriod with
        spent := spent
        transactionCount := b.currentPeriod.transactionCount + 1
        lastTransactionDate := some now
        remaining := max 0 (b.amount - spent) } }

/-- Left-pads the decimal representation of `n` to two digits
(`String(n).padStart(2, '0')`). -/
def pad2 (n : Nat) : String :=
  if n < 10 then "0" ++ toString n else toString n

/-- Helper: days in the years `0, 1, ..., y - 1` of the proleptic
Gregorian calendar. -/
def daysBeforeYear (y : Nat) : Nat :=
  (List.range y).foldl (fun acc i => acc + (if isLeapYear i then 366 else 365)) 0

/-- Helper: days in the months `0, ..., m - 1` of year `y`. -/
def daysBeforeMonth (y : Nat) (m : Fin 12) : Nat :=
  (List.range m.val).foldl
    (fun acc i => acc + daysInMonth y ⟨i % 12, Nat.mod_lt _ (by omega)⟩) 0

/-- JS `date.getDay()` (0 = Sunday) for a proleptic Gregorian date;
day 1 of month 0 of year 0 was a Saturday (6). -/
def dayOfWeek (d : YMD) : Nat :=
  (6 + daysBeforeYear d.year + daysBeforeMonth d.year d.month + (d.day - 1)) % 7

/-- Embedding of the helper `getWeekNumber` (Budget.js lines 404-408):
`pastDaysOfYear` is the whole-day difference to January 1, and the week
number is `Math.ceil((pastDaysOfYear + firstDayOfYear.getDay() + 1) / 7)`. -/
def getWeekNumber (d : YMD) : Nat :=
  let firstDay := dayOfWeek ⟨d.year, ⟨0, by omega⟩, 1⟩
  let pastDaysOfYear := daysBeforeMonth d.year d.month + (d.day - 1)
  (pastDaysOfYear + firstDay + 1 + 6) / 7

/-- Embedding of the instance method `getPeriodString` (Budget.js lines
375-390): the label of the period starting at `startDate`. -/
def getPeriodString (b : Budget) : String :=
  let date := b.startDate
  match b.period with
  | PeriodKind.weekly => toString date.year ++ "-W" ++ toString (getWeekNumber date)
  | PeriodKind.monthly => toString date.year ++ "-" ++ pad2 (date.month.val + 1)
  | PeriodKind.quarterly => toString date.year ++ "-Q" ++ toString (date.month.val / 3 + 1)
  | PeriodKind.yearly => toString date.year

/-- Embedding of the helper `getPeriodInDays` (Budget.js lines 393-401). -/
def getPeriodInDays (b : Budget) : Nat :=
  match b.period with
  | PeriodKind.weekly => 7
  | PeriodKind.monthly => 30
  | PeriodKind.quarterly => 90
  | PeriodKind.yearly => 365

/-- Embedding of the instance method `renewForNextPeriod` (Budget.js
lines 322-372).  Returns `none` (JS `null`) exactly when auto-renewal is
disabled — the budget's status is never consulted.  Otherwise, in source
order: archive the closing period into `history`; advance the date range
by one fixed-length period; scale `amount` when `adjustAmount` is set;
compute the rollover from the (possibly already adjusted) amount, gated
on both `rollover.enabled` and `rollover.carryOverUnused`, capped by
`maxRolloverAmount` only when that field is truthy (present and nonzero);
reset `currentPeriod`; set status `active`; save.  The returned budget is
the saved document. -/
def renewForNextPeriod (b : Budget) : Option Budget :=
  if !b.autoRenew.enabled then none
  else
    let entry : HistoryEntry :=
      { period := getPeriodString b
        budgetAmount := b.amount
        actualSpent := b.currentPeriod.spent
        variance := b.amount - b.currentPeriod.spent
        variancePercentage := (b.amount - b.currentPeriod.spent) / b.amount * 100
        transactionCount := b.currentPeriod.transactionCount
        startDate := b.startDate
        endDate := b.endDate
        notes := "Auto-renewed budget period" }
    let b := { b with history := b.history ++ [entry] }
    let periodInDays := getPeriodInDays b
    let newStart := addDays 1 b.endDate
    let newEnd := addDays (periodInDays - 1) newStart
    let b := { b with startDate := newStart, endDate := newEnd }
    let b :=
      if b.autoRenew.adjustAmount then
        { b with amount := b.amount + b.amount * b.autoRenew.adjustmentPercentage / 100 }
      else b
    let rolloverAmount : ℚ :=
      if b.rollover.enabled ∧ b.rollover.carryOverUnused then
        let unused := max 0 (b.amount - b.currentPeriod.spent)
        match b.rollover.maxRolloverAmount with
        | some cap => if cap = 0 then unused else min unused cap
        | none => unused
      else 0
    let b :=
      { b with
        currentPeriod :=
          { spent := 0
            remaining := b.amount + rolloverAmount
            transactionCount := 0
            lastTransactionDate := none
            rolloverAmount := rolloverAmount } }
    some { b with status := BStatus.active }

/-- Errors the renew route reports. -/
inductive RenewError where
  | budgetNotCompleted
  | autoRenewalDisabled
deriving DecidableEq, Repr

/-- Embedding of `POST /api/budgets/:id/renew` (budgets.js lines
330-343) after the budget is found: reject unless the stored status is
`completed`, then call `renewForNextPeriod` and reject a `null` result. -/
def renewRoute (b : Budget) : Except RenewError Budget :=
  if b.status ≠ BStatus.completed then Except.error RenewError.budgetNotCompleted
  else
    match renewForNextPeriod b with
    | none => Except.error RenewError.autoRenewalDisabled
    | some renewed => Except.ok renewed

/-! ## Read-then-write race on `currentPeriod.spent` (C9)

The transaction route loads the matching budget document
(`Budget.findOne`), calls `budget.addTransaction(amount)`, and the method
persists with `this.save()` — a write of the whole in-memory document.
Concurrent invocations are modelled as interleavings of two atomic store
actions per client: `load` (copy the persisted document into the client's
local variable) and `saveDoc` (overwrite the persisted document with the
client's locally mutated copy). -/

/-- One atomic action of a client running the add-transaction flow. -/
inductive RWAction where
  | load (client : Nat)
  | saveDoc (client : Nat)
deriving DecidableEq, Repr

/-- Store state: the persisted budget record plus each client's
in-memory loaded copy. -/
structure RaceState where
  persisted : Budget
  local_ : Nat → Budget

/-- Semantics of one action: `load` copies the persisted record; `saveDoc`
applies `addTransaction` to the client's loaded copy and writes the whole
resulting document back. -/
def raceStep (amt : ℚ) (now : YMD) (st : RaceState) : RWAction → RaceState
  | RWAction.load c => { st with local_ := Function.update st.local_ c st.persisted }
  | RWAction.saveDoc c => { st with persisted := addTransaction (st.local_ c) amt now }

/-- Persisted `currentPeriod.spent` after running a schedule of actions
from an initial budget record. -/
def runRace (b0 : Budget) (amt : ℚ) (now : YMD) (sched : List RWAction) : ℚ :=
  (sched.foldl (raceStep amt now) ⟨b0, fun _ => b0⟩).persisted.currentPeriod.spent

/-! ## Savings goal solver (`calculateTimeToGoal`, `generateSavingsScenarios`)

JS numbers reachable in this code are exact rationals except for the
special values `Infinity`, `-Infinity` and `NaN`, which arise from the
`{months: Infinity}` terminal result and from arithmetic on it; `JsNum`
carries them explicitly.  The one transcendental computation,
`Math.log(1 + ratio) / Math.log(1 + monthlyRate)`, is supplied as a
parameter `lnDiv` (any function whatsoever), so every theorem below holds
for the platform's actual floating-point logarithm. -/

/-- JS number with its special values. -/
inductive JsNum where
  | fin (q : ℚ)
  | inf
  | ninf
  | nan
deriving DecidableEq, Repr

/-- JS multiplication of a finite number by a possibly-special number
(used for `contribution * months`). -/
def JsNum.mulFin (c : ℚ) : JsNum → JsNum
  | JsNum.fin q => JsNum.fin (c * q)
  | JsNum.inf => if c = 0 then JsNum.nan else if 0 < c then JsNum.inf else JsNum.ninf
  | JsNum.ninf => if c = 0 then JsNum.nan else if 0 < c then JsNum.ninf else JsNum.inf
  | JsNum.nan => JsNum.nan

/-- JS subtraction `c - x` of a possibly-special number from a finite one. -/
def JsNum.finSub (c : ℚ) : JsNum → JsNum
  | JsNum.fin q => JsNum.fin (c - q)
  | JsNum.inf => JsNum.ninf
  | JsNum.ninf => JsNum.inf
  | JsNum.nan => JsNum.nan

/-- JS subtraction of two possibly-special numbers (used for
`timeToGoal.months - acceleratedTime.months`). -/
def JsNum.sub : JsNum → JsNum → JsNum
  | JsNum.fin a, JsNum.fin b => JsNum.fin (a - b)
  | JsNum.fin _, JsNum.inf => JsNum.ninf
  | JsNum.fin _, JsNum.ninf => JsNum.inf
  | JsNum.inf, JsNum.fin _ => JsNum.inf
  | JsNum.ninf, JsNum.fin _ => JsNum.ninf
  | JsNum.inf, JsNum.ninf => JsNum.inf
  | JsNum.ninf, JsNum.inf => JsNum.ninf
  | _, _ => JsNum.nan

/-- The `{months, years}` object returned by `calculateTimeToGoal`:
either both fields are `Infinity`, or `months` is a whole number and
`years` its rounded-to-one-decimal twelfth. -/
inductive TimeToGoal where
  | infinite
  | finite (months : ℤ) (years : ℚ)
deriving DecidableEq, Repr

/-- Months field of a `TimeToGoal` as a JS number. -/
def TimeToGoal.monthsNum : TimeToGoal → JsNum
  | TimeToGoal.infinite => JsNum.inf
  | TimeToGoal.finite m _ => JsNum.fin (m : ℚ)

/-- Years value reported for a finite whole-month count:
`Math.round((months / 12) * 10) / 10`. -/
def yearsOfMonths (m : ℤ) : ℚ := (jsRound ((m : ℚ) / 12 * 10) : ℚ) / 10

/-- Embedding of `calculateTimeToGoal` (forecasts.js lines 506-545).
`lnDiv a b` stands for the floating-point value of
`Math.log(a) / Math.log(b)`.  Branches, in source order: non-positive
contribution → infinite; zero monthly rate → `ceil(remaining /
contribution)`; ratio `remaining * rate / contribution ≤ -1` → infinite;
otherwise take the logarithm quotient, falling back to
`ceil(remaining / contribution)` when it is not finite or not positive,
and round the month count up. -/
def calculateTimeToGoal (lnDiv : ℚ → ℚ → JsNum) (remaining monthlyContribution monthlyRate : ℚ) :
    TimeToGoal :=
  if monthlyContribution ≤ 0 then TimeToGoal.infinite
  else if monthlyRate = 0 then
    let months := ⌈remaining / monthlyContribution⌉
    TimeToGoal.finite months (yearsOfMonths months)
  else
    let ratio := remaining * monthlyRate / monthlyContribution
    if ratio ≤ -1 then TimeToGoal.infinite
    else
      let months : ℚ :=
        match lnDiv (1 + ratio) (1 + monthlyRate) with
        | JsNum.fin q => if q ≤ 0 then (⌈remaining / monthlyContribution⌉ : ℚ) else q
        | _ => (⌈remaining / monthlyContribution⌉ : ℚ)
      let roundedMonths := ⌈months⌉
      TimeToGoal.finite roundedMonths (yearsOfMonths roundedMonths)

/-- One scenario entry (`current` / `accelerated` / `reduced`); the
derived fields multiply or subtract possibly-infinite month counts. -/
structure ScenarioEntry where
  monthlyContribution : ℚ
  timeToGoal : TimeToGoal
  totalContributions : JsNum
  extra : JsNum
deriving DecidableEq, Repr

/-- Result shape of `generateSavingsScenarios`: either the early "goal
already achieved" object or the three-scenario object. -/
inductive SavingsScenarios where
  | achieved (message : String) (timeToGoal : TimeToGoal)
  | scenarios (current accelerated reduced : ScenarioEntry)
deriving DecidableEq, Repr

/-- Embedding of `generateSavingsScenarios` (forecasts.js lines 459-504).
If the goal is already met (`remaining ≤ 0`) return zero months
immediately; otherwise solve for the current contribution and for the
25%-accelerated and 25%-reduced variants.  In the entries, `extra` is
`interestEarned` for `current`, `monthsSaved` for `accelerated` and
`extraMonths` for `reduced`. -/
def generateSavingsScenarios (lnDiv : ℚ → ℚ → JsNum)
    (goalAmount currentAmount monthlyContribution interestRate : ℚ) : SavingsScenarios :=
  let remaining := goalAmount - currentAmount
  if remaining ≤ 0 then
    SavingsScenarios.achieved "Goal already achieved!" (TimeToGoal.finite 0 0)
  else
    let monthlyRate := interestRate / 100 / 12
    let timeToGoal := calculateTimeToGoal lnDiv remaining monthlyContribution monthlyRate
    let current : ScenarioEntry :=
      { monthlyContribution := monthlyContribution
        timeToGoal := timeToGoal
        totalContributions := JsNum.mulFin monthlyContribution timeToGoal.monthsNum
        extra := JsNum.finSub (goalAmount - currentAmount)
          (JsNum.mulFin monthlyContribution timeToGoal.monthsNum) }
    let acceleratedContribution := monthlyContribution * (5 / 4)
    let acceleratedTime := calculateTimeToGoal lnDiv remaining acceleratedContribution monthlyRate
    let accelerated : ScenarioEntry :=
      { monthlyContribution := acceleratedContribution
        timeToGoal := acceleratedTime
        totalContributions := JsNum.mulFin acceleratedContribution acceleratedTime.monthsNum
        extra := JsNum.sub timeToGoal.monthsNum acceleratedTime.monthsNum }
    let reducedContribution := monthlyContribution * (3 / 4)
    let reducedTime := calculateTimeToGoal lnDiv remaining reducedContribution monthlyRate
    let reduced : ScenarioEntry :=
      { monthlyContribution := reducedContribution
        timeToGoal := reducedTime
        totalContributions := JsNum.mulFin reducedContribution reducedTime.monthsNum
        extra := JsNum.sub reducedTime.monthsNum timeToGoal.monthsNum }
    SavingsScenarios.scenarios current accelerated reduced

/-- Months of the `current` scenario's time-to-goal (`none` for the
"already achieved" shape, where the claims read `timeToGoal.months`
directly). -/
def currentScenarioTime : SavingsScenarios → Option TimeToGoal
  | SavingsScenarios.achieved _ t => some t
  | SavingsScenarios.scenarios current _ _ => some current.timeToGoal

/-! ## Claim-side quantities

Definitions in this section follow the wording of the spec claims (not
the source); they exist to be compared against the embedded code. -/

/-- Per-month income contribution of a transaction list, as a sum over
the transactions with the given key (reference form of the aggregation). -/
def incSum (ts : List Tx) (k : YM) : ℚ :=
  (ts.map fun t => if monthKey t = k ∧ t.type = TxType.income then t.amount else 0).sum

/-- Per-month expense contribution, reference form. -/
def expSum (ts : List Tx) (k : YM) : ℚ :=
  (ts.map fun t => if monthKey t = k ∧ ¬t.type = TxType.income then t.amount else 0).sum

/-- Buckets of the history that fall in calendar month `i`. -/
def monthRowsAt (d : List MonthRow) (i : Fin 12) : List MonthRow :=
  d.filter fun r => r.month.month = i

/-- Historical average income for calendar month `i` (0 when that month
has no history). -/
def histAvgIncomeAt (d : List MonthRow) (i : Fin 12) : ℚ :=
  if 0 < (monthRowsAt d i).length then
    ((monthRowsAt d i).map MonthRow.income).sum / ((monthRowsAt d i).length : ℚ)
  else 0

/-- Historical average expenses for calendar month `i`. -/
def histAvgExpensesAt (d : List MonthRow) (i : Fin 12) : ℚ :=
  if 0 < (monthRowsAt d i).length then
    ((monthRowsAt d i).map MonthRow.expenses).sum / ((monthRowsAt d i).length : ℚ)
  else 0

/-- Mean of the 12 per-calendar-month income averages (the denominator
the code actually uses). -/
def overallMonthlyAvgIncome (d : List MonthRow) : ℚ := (∑ i : Fin 12, histAvgIncomeAt d i) / 12

/-- Mean of the 12 per-calendar-month expense averages. -/
def overallMonthlyAvgExpenses (d : List MonthRow) : ℚ :=
  (∑ i : Fin 12, histAvgExpensesAt d i) / 12

/-- Overall historical average income: the mean income over ALL buckets
of the history (this is also the `baselineIncome` of the seasonal
forecast). -/
def overallHistAvgIncome (d : List MonthRow) : ℚ :=
  ((d.map MonthRow.income).sum) / (d.length : ℚ)

/-- Overall historical average expenses. -/
def overallHistAvgExpenses (d : List MonthRow) : ℚ :=
  ((d.map MonthRow.expenses).sum) / (d.length : ℚ)

/-- Seasonal income factor as claim C6 words it: (historical average for
that calendar month) / (overall historical average), with factor 1.0 for
a calendar month that has no history. -/
def claimedSeasonalFactorIncome (d : List MonthRow) (i : Fin 12) : ℚ :=
  if 0 < (monthRowsAt d i).length then histAvgIncomeAt d i / overallHistAvgIncome d else 1

/-- Carried rollover as claim C5 words it: the closing period's unused
amount, capped at `maxRolloverAmount` when that cap is set, and zero when
rollover is disabled or the closing period was exceeded. -/
def claimedRollover (b : Budget) : ℚ :=
  if b.rollover.enabled = false ∨ b.amount < b.currentPeriod.spent then 0
  else
    match b.rollover.maxRolloverAmount with
    | some cap => min (b.amount - b.currentPeriod.spent) cap
    | none => b.amount - b.currentPeriod.spent

/-! ## Concrete fixtures used by witnesses and counterexamples -/

/-- Wall-clock instant used by the concrete evaluations: 2024-06-15. -/
def now0 : YMD := ⟨2024, ⟨5, by omega⟩, 15⟩

/-- Arbitrary value of the `Math.log` quotient parameter (the degenerate
and zero-rate paths never consult it). -/
def lnDiv0 : ℚ → ℚ → JsNum := fun _ _ => JsNum.nan

/-- Transaction fixtures: January 2024 salary and grocery expense. -/
def txA : Tx := ⟨⟨2024, ⟨0, by omega⟩, 5⟩, TxType.income, 2500⟩

/-- Second transaction fixture, in a later month. -/
def txB : Tx := ⟨⟨2024, ⟨2, by omega⟩, 9⟩, TxType.expense, 700⟩

/-- Monthly-bucket history with a single January bucket of income 120:
the seasonal-factor counterexample history. -/
def seasonalHistory0 : List MonthRow := [⟨⟨2024, ⟨0, by omega⟩⟩, 120, 0, 120⟩]

/-- History row fixture for the simple-forecast witness. -/
def simpleHistory0 : List MonthRow :=
  [⟨⟨2024, ⟨3, by omega⟩⟩, 3000, 1800, 1200⟩, ⟨⟨2024, ⟨4, by omega⟩⟩, 3000, 2100, 900⟩]

/-- Base budget fixture: an active monthly expense budget of 100 for the
first half of 2024, no rollover, auto-renew on without adjustment. -/
def baseBudget : Budget :=
  { amount := 100
    period := PeriodKind.monthly
    startDate := ⟨2024, ⟨0, by omega⟩, 1⟩
    endDate := ⟨2024, ⟨5, by omega⟩, 30⟩
    status := BStatus.active
    rollover := { enabled := false, carryOverUnused := true, maxRolloverAmount := none }
    autoRenew := { enabled := true, adjustAmount := false, adjustmentPercentage := 0 }
    currentPeriod :=
      { spent := 0, remaining := 100, transactionCount := 0
        lastTransactionDate := none, rolloverAmount := 0 }
    history := []
    lastCalculated := none }

/-- Paused budget that has fully spent its amount (C2 counterexample). -/
def pausedSpentBudget : Budget :=
  { baseBudget with
    status := BStatus.paused
    currentPeriod := { baseBudget.currentPeriod with spent := 100 } }

/-- Budget marked `exceeded` whose spending has been edited back under
the limit (C2 witness). -/
def exceededEditedBudget : Budget :=
  { baseBudget with
    status := BStatus.exceeded
    currentPeriod := { baseBudget.currentPeriod with spent := 40 } }

/-- Active budget with auto-renew enabled (C4 counterexample). -/
def activeAutoRenewBudget : Budget :=
  { baseBudget with currentPeriod := { baseBudget.currentPeriod with spent := 25 } }

/-- Completed budget with auto-renew disabled (C4 witness). -/
def completedNoRenewBudget : Budget :=
  { baseBudget with
    status := BStatus.completed
    autoRenew := { baseBudget.autoRenew with enabled := false } }

/-- Completed budget with rollover enabled but `carryOverUnused` off and
40 of 100 spent (C5 counterexample). -/
def noCarryBudget : Budget :=
  { baseBudget with
    status := BStatus.completed
    rollover := { enabled := true, carryOverUnused := false, maxRolloverAmount := none }
    currentPeriod := { baseBudget.currentPeriod with spent := 40 } }

/-- Completed budget with rollover and carry-over enabled, a cap of 50,
and 30 of 100 spent (C5 witness). -/
def cappedRolloverBudget : Budget :=
  { baseBudget with
    status := BStatus.completed
    rollover := { enabled := true, carryOverUnused := true, maxRolloverAmount := some 50 }
    currentPeriod := { baseBudget.currentPeriod with spent := 30 } }

/-- Budget with spent 99.5 of amount 100 (C10 witness). -/
def almostSpentBudget : Budget :=
  { baseBudget with currentPeriod := { baseBudget.currentPeriod with spent := 199 / 2 } }

/-- Fresh budget the concurrent additions race on (C9). -/
def raceBudget : Budget := { baseBudget with amount := 500 }

/-- Interleaved schedule: both clients load the budget document before
either saves (the lost-update schedule). -/
def lostUpdateSchedule : List RWAction :=
  [RWAction.load 0, RWAction.load 1, RWAction.saveDoc 0, RWAction.saveDoc 1]

/-- Serial schedule: the second client loads only after the first saved. -/
def serialSchedule : List RWAction :=
  [RWAction.load 0, RWAction.saveDoc 0, RWAction.load 1, RWAction.saveDoc 1]

/-! ## Helper lemmas -/

/-- Year-month keys are determined by their numeric serial. -/
theorem ym_toKey_inj {a b : YM} (h : a.toKey = b.toKey) : a = b := by
  obtain ⟨ya, ma⟩ := a
  obtain ⟨yb, mb⟩ := b
  simp only [YM.toKey] at h
  have hma := ma.isLt
  have hmb := mb.isLt
  have : ya = yb ∧ ma.val = mb.val := by omega
  simp [this.1, Fin.ext this.2]

/-- Income component of the aggregation fold, for any starting bucket. -/
theorem foldBucket_income (k : YM) (ts : List Tx) : ∀ b : MonthBucket,
    (ts.foldl (fun b t => if monthKey t = k then applyTx b t else b) b).income
      = b.income + incSum ts k := by
  induction ts with
  | nil => intro b; simp [incSum]
  | cons t ts ih =>
    intro b
    simp only [List.foldl_cons, incSum, List.map_cons, List.sum_cons]
    rw [ih]
    by_cases hk : monthKey t = k
    · by_cases ht : t.type = TxType.income
      · simp only [if_pos hk, applyTx, if_pos ht, if_pos (And.intro hk ht)]
        simp [incSum]; ring
      · simp only [if_pos hk, applyTx, if_neg ht]
        rw [if_neg (by simp [ht])]
        simp [incSum]
    · rw [if_neg hk, if_neg (by simp [hk])]
      simp [incSum]

/-- Expense component of the aggregation fold. -/
theorem foldBucket_expenses (k : YM) (ts : List Tx) : ∀ b : MonthBucket,
    (ts.foldl (fun b t => if monthKey t = k then applyTx b t else b) b).expenses
      = b.expenses + expSum ts k := by
  induction ts with
  | nil => intro b; simp [expSum]
  | cons t ts ih =>
    intro b
    simp only [List.foldl_cons, expSum, List.map_cons, List.sum_cons]
    rw [ih]
    by_cases hk : monthKey t = k
    · by_cases ht : t.type = TxType.income
      · simp only [if_pos hk, applyTx, if_pos ht]
        rw [if_neg (by simp [ht])]
        simp [expSum]
      · simp only [if_pos hk, applyTx, if_neg ht, if_pos (And.intro hk ht)]
        simp [expSum]; ring
    · rw [if_neg hk, if_neg (by simp [hk])]
      simp [expSum]

/-- The net field stays the difference of income and expenses through the
aggregation fold. -/
theorem foldBucket_net (k : YM) (ts : List Tx) : ∀ b : MonthBucket,
    b.net = b.income - b.expenses →
    (ts.foldl (fun b t => if monthKey t = k then applyTx b t else b) b).net
      = (ts.foldl (fun b t => if monthKey t = k then applyTx b t else b) b).income
        - (ts.foldl (fun b t => if monthKey t = k then applyTx b t else b) b).expenses := by
  induction ts with
  | nil => intro b hb; simpa using hb
  | cons t ts ih =>
    intro b hb
    simp only [List.foldl_cons]
    apply ih
    by_cases hk : monthKey t = k
    · rw [if_pos hk]
      by_cases ht : t.type = TxType.income <;> simp [applyTx, ht]
    · rwa [if_neg hk]

/-- Closed form of the per-key aggregate: sums over the matching
transactions, with net their difference. -/
theorem bucketFold_eq (ts : List Tx) (k : YM) :
    bucketFold ts k = ⟨incSum ts k, expSum ts k, incSum ts k - expSum ts k⟩ := by
  have hi := foldBucket_income k ts ⟨0, 0, 0⟩
  have he := foldBucket_expenses k ts ⟨0, 0, 0⟩
  have hn := foldBucket_net k ts ⟨0, 0, 0⟩ (by simp)
  rcases hb : bucketFold ts k with ⟨i, e, n⟩
  unfold bucketFold at hb
  rw [hb] at hi he hn
  simp only at hi he hn
  simp [hi, he, hn]

/-- The per-key income sum is invariant under permutation of the input. -/
theorem incSum_perm {ts ts' : List Tx} (h : ts.Perm ts') (k : YM) :
    incSum ts k = incSum ts' k :=
  (h.map _).sum_eq

/-- The per-key expense sum is invariant under permutation of the input. -/
theorem expSum_perm {ts ts' : List Tx} (h : ts.Perm ts') (k : YM) :
    expSum ts k = expSum ts' k :=
  (h.map _).sum_eq

/-- The sorted key list is the same for any permutation of the input. -/
theorem monthKeys_perm {ts ts' : List Tx} (h : ts.Perm ts') :
    monthKeys ts = monthKeys ts' := by
  apply List.eq_of_perm_of_sorted (r := ymLe)
  · exact (List.perm_insertionSort ymLe _).trans
      (((h.map monthKey).dedup).trans (List.perm_insertionSort ymLe _).symm)
  · exact List.sorted_insertionSort ymLe _
  · exact List.sorted_insertionSort ymLe _

/-- The emitted key list has no duplicates. -/
theorem monthKeys_nodup (ts : List Tx) : (monthKeys ts).Nodup :=
  ((List.perm_insertionSort ymLe _).nodup_iff).mpr (List.nodup_dedup _)

/-- The emitted key list is strictly increasing. -/
theorem monthKeys_sorted_lt (ts : List Tx) : (monthKeys ts).Sorted ymLt := by
  have hs : (monthKeys ts).Sorted ymLe := List.sorted_insertionSort ymLe _
  have hn : (monthKeys ts).Nodup := monthKeys_nodup ts
  exact (hs.and hn).imp fun hab =>
    lt_of_le_of_ne hab.1 fun hk => hab.2 (ym_toKey_inj hk)

/-- Claim C3: the monthly aggregator emits buckets in strictly ascending
year-month order, every bucket's net is income minus expenses, and the
output is identical for any permutation of the input transactions. -/
theorem monthly_aggregator_sorted_net_perm (ts ts' : List Tx) (hperm : ts.Perm ts') :
    ((groupTransactionsByMonth ts).map MonthRow.month).Sorted ymLt
    ∧ (∀ r ∈ groupTransactionsByMonth ts, r.net = r.income - r.expenses)
    ∧ groupTransactionsByMonth ts = groupTransactionsByMonth ts' := by
  refine ⟨?_, ?_, ?_⟩
  · have : (groupTransactionsByMonth ts).map MonthRow.month = monthKeys ts := by
      simp only [groupTransactionsByMonth, List.map_map]
      have hcomp : (MonthRow.month ∘ fun k =>
          MonthRow.mk k (bucketFold ts k).income (bucketFold ts k).expenses
            (bucketFold ts k).net) = id := rfl
      rw [hcomp, List.map_id]
    rw [this]
    exact monthKeys_sorted_lt ts
  · intro r hr
    simp only [groupTransactionsByMonth, List.mem_map] at hr
    obtain ⟨k, _, rfl⟩ := hr
    simp [bucketFold_eq]
  · unfold groupTransactionsByMonth
    rw [monthKeys_perm hperm]
    apply List.map_congr_left
    intro k _
    rw [bucketFold_eq, bucketFold_eq, incSum_perm hperm, expSum_perm hperm]

/-- Witness for C3 at a concrete two-transaction input and its swap. -/
theorem monthly_aggregator_sorted_net_perm_witness :
    [txA, txB].Perm [txB, txA]
    ∧ (((groupTransactionsByMonth [txA, txB]).map MonthRow.month).Sorted ymLt
        ∧ (∀ r ∈ groupTransactionsByMonth [txA, txB], r.net = r.income - r.expenses)
        ∧ groupTransactionsByMonth [txA, txB] = groupTransactionsByMonth [txB, txA]) :=
  ⟨List.Perm.swap txB txA [],
   monthly_aggregator_sorted_net_perm [txA, txB] [txB, txA] (List.Perm.swap txB txA [])⟩

/-- Income component of the seasonal accumulation loop. -/
theorem seasonalFold_income (d : List MonthRow) : ∀ (a : SeasonalAcc) (i : Fin 12),
    ((d.foldl seasonalStep a).incomeSum i)
      = a.incomeSum i + ((monthRowsAt d i).map MonthRow.income).sum := by
  induction d with
  | nil => intro a i; simp [monthRowsAt]
  | cons r d ih =>
    intro a i
    simp only [List.foldl_cons]
    rw [ih]
    by_cases hi : r.month.month = i
    · simp [seasonalStep, monthRowsAt, hi, Function.update_same, List.filter_cons_of_pos]
      ring
    · simp [seasonalStep, monthRowsAt, Function.update_noteq (Ne.symm hi),
        List.filter_cons_of_neg, hi]

/-- Expense component of the seasonal accumulation loop. -/
theorem seasonalFold_expenses (d : List MonthRow) : ∀ (a : SeasonalAcc) (i : Fin 12),
    ((d.foldl seasonalStep a).expenseSum i)
      = a.expenseSum i + ((monthRowsAt d i).map MonthRow.expenses).sum := by
  induction d with
  | nil => intro a i; simp [monthRowsAt]
  | cons r d ih =>
    intro a i
    simp only [List.foldl_cons]
    rw [ih]
    by_cases hi : r.month.month = i
    · simp [seasonalStep, monthRowsAt, hi, Function.update_same, List.filter_cons_of_pos]
      ring
    · simp [seasonalStep, monthRowsAt, Function.update_noteq (Ne.symm hi),
        List.filter_cons_of_neg, hi]

/-- Count component of the seasonal accumulation loop. -/
theorem seasonalFold_counts (d : List MonthRow) : ∀ (a : SeasonalAcc) (i : Fin 12),
    ((d.foldl seasonalStep a).counts i) = a.counts i + (monthRowsAt d i).length := by
  induction d with
  | nil => intro a i; simp [monthRowsAt]
  | cons r d ih =>
    intro a i
    simp only [List.foldl_cons]
    rw [ih]
    by_cases hi : r.month.month = i
    · simp [seasonalStep, monthRowsAt, hi, Function.update_same, List.filter_cons_of_pos]
      ring
    · simp [seasonalStep, monthRowsAt, Function.update_noteq (Ne.symm hi),
        List.filter_cons_of_neg, hi]

/-- The divide step of `calculateSeasonalFactors` recovers the
per-calendar-month historical income average. -/
theorem seasonal_avg_income (d : List MonthRow) (i : Fin 12) :
    (if 0 < (d.foldl seasonalStep ⟨fun _ => 0, fun _ => 0, fun _ => 0⟩).counts i then
        (d.foldl seasonalStep ⟨fun _ => 0, fun _ => 0, fun _ => 0⟩).incomeSum i
          / ((d.foldl seasonalStep ⟨fun _ => 0, fun _ => 0, fun _ => 0⟩).counts i : ℚ)
      else (d.foldl seasonalStep ⟨fun _ => 0, fun _ => 0, fun _ => 0⟩).incomeSum i)
      = histAvgIncomeAt d i := by
  rw [seasonalFold_counts, seasonalFold_income]
  simp only [histAvgIncomeAt]
  by_cases hlen : 0 < (monthRowsAt d i).length
  · simp [hlen]
  · have h0 : (monthRowsAt d i).length = 0 := by omega
    have hnil : monthRowsAt d i = [] := List.length_eq_zero.mp h0
    simp [hnil]

/-- The divide step of `calculateSeasonalFactors` recovers the
per-calendar-month historical expense average. -/
theorem seasonal_avg_expenses (d : List MonthRow) (i : Fin 12) :
    (if 0 < (d.foldl seasonalStep ⟨fun _ => 0, fun _ => 0, fun _ => 0⟩).counts i then
        (d.foldl seasonalStep ⟨fun _ => 0, fun _ => 0, fun _ => 0⟩).expenseSum i
          / ((d.foldl seasonalStep ⟨fun _ => 0, fun _ => 0, fun _ => 0⟩).counts i : ℚ)
      else (d.foldl seasonalStep ⟨fun _ => 0, fun _ => 0, fun _ => 0⟩).expenseSum i)
      = histAvgExpensesAt d i := by
  rw [seasonalFold_counts, seasonalFold_expenses]
  simp only [histAvgExpensesAt]
  by_cases hlen : 0 < (monthRowsAt d i).length
  · simp [hlen]
  · have h0 : (monthRowsAt d i).length = 0 := by omega
    have hnil : monthRowsAt d i = [] := List.length_eq_zero.mp h0
    simp [hnil]

/-- Claim C6 (amended): the income factor of a calendar month is its
per-month historical average divided by the mean of the 12 per-month
averages (not the overall historical average), defaulting to 1 only when
that mean is not positive; likewise for expenses; and each seasonal
forecast point reports the raw factor of its calendar month while its
value multiplies the all-history baseline by the factor with 1 substituted
for a zero factor. -/
theorem calc_factors_income (d : List MonthRow) :
    (calculateSeasonalFactors d).income = fun i =>
      if 0 < overallMonthlyAvgIncome d then
        histAvgIncomeAt d i / overallMonthlyAvgIncome d else 1 := by
  funext i
  simp only [calculateSeasonalFactors, seasonal_avg_income]
  rfl

/-- Explicit form of the expense factors computed by
`calculateSeasonalFactors`. -/
theorem calc_factors_expenses (d : List MonthRow) :
    (calculateSeasonalFactors d).expenses = fun i =>
      if 0 < overallMonthlyAvgExpenses d then
        histAvgExpensesAt d i / overallMonthlyAvgExpenses d else 1 := by
  funext i
  simp only [calculateSeasonalFactors, seasonal_avg_expenses]
  rfl

/-- Claim C6 (amended): the income factor of a calendar month is its
per-month historical average divided by the mean of the 12 per-month
averages (not the overall historical average), defaulting to 1 only when
that mean is not positive; likewise for expenses; and each seasonal
forecast point reports the raw factor of its calendar month while its
value multiplies the all-history baseline by the factor with 1 substituted
for a zero factor. -/
theorem seasonal_factors_amended (d : List MonthRow) (months : Nat) (now : YMD) :
    (∀ i : Fin 12, (calculateSeasonalFactors d).income i
        = if 0 < overallMonthlyAvgIncome d then
            histAvgIncomeAt d i / overallMonthlyAvgIncome d else 1)
    ∧ (∀ i : Fin 12, (calculateSeasonalFactors d).expenses i
        = if 0 < overallMonthlyAvgExpenses d then
            histAvgExpensesAt d i / overallMonthlyAvgExpenses d else 1)
    ∧ (∀ p ∈ generateSeasonalForecast d months now,
        p.factorIncome = (calculateSeasonalFactors d).income p.month.month
        ∧ p.factorExpenses = (calculateSeasonalFactors d).expenses p.month.month
        ∧ p.income = round2 (overallHistAvgIncome d
            * (if p.factorIncome = 0 then 1 else p.factorIncome))
        ∧ p.expenses = round2 (overallHistAvgExpenses d
            * (if p.factorExpenses = 0 then 1 else p.factorExpenses))) := by
  refine ⟨fun i => by rw [calc_factors_income], fun i => by rw [calc_factors_expenses], ?_⟩
  intro p hp
  simp only [generateSeasonalForecast, List.mem_map, List.mem_range] at hp
  obtain ⟨j, _, rfl⟩ := hp
  exact ⟨rfl, rfl, rfl, rfl⟩

/-- Concrete evaluation: per-calendar-month income averages of the
one-bucket January history. -/
theorem histAvg_seasonalHistory0 (i : Fin 12) :
    histAvgIncomeAt seasonalHistory0 i = if i = 0 then 120 else 0 := by
  fin_cases i <;>
    simp [histAvgIncomeAt, monthRowsAt, seasonalHistory0, List.filter]

/-- Concrete evaluation: the code's denominator (mean of the 12 per-month
averages) on the one-bucket January history is 10. -/
theorem overallMonthlyAvg_seasonalHistory0 :
    overallMonthlyAvgIncome seasonalHistory0 = 10 := by
  rw [overallMonthlyAvgIncome]
  simp [Fin.sum_univ_succ, histAvg_seasonalHistory0]
  norm_num

/-- Concrete evaluation: the overall historical average income of the
one-bucket January history is 120. -/
theorem overallHistAvg_seasonalHistory0 :
    overallHistAvgIncome seasonalHistory0 = 120 := by
  norm_num [overallHistAvgIncome, seasonalHistory0]

/-- Witness for the amended C6 at the one-bucket January history. -/
theorem seasonal_factors_amended_witness :
    (0 : ℚ) < overallMonthlyAvgIncome seasonalHistory0
    ∧ (calculateSeasonalFactors seasonalHistory0).income 0
        = histAvgIncomeAt seasonalHistory0 0 / overallMonthlyAvgIncome seasonalHistory0 := by
  have hpos : (0 : ℚ) < overallMonthlyAvgIncome seasonalHistory0 := by
    rw [overallMonthlyAvg_seasonalHistory0]; norm_num
  have h := (seasonal_factors_amended seasonalHistory0 2 now0).1 0
  exact ⟨hpos, by rw [h, if_pos hpos]⟩

/-- Counterexample to C6 as stated: on a history with a single January
bucket of income 120, the code's January income factor is 12 while the
claimed factor (per-month average over overall historical average) is 1,
and the code's factor for the history-free February is 0, not the claimed
1. -/
theorem seasonal_factors_counterexample :
    (calculateSeasonalFactors seasonalHistory0).income 0 = 12
    ∧ claimedSeasonalFactorIncome seasonalHistory0 0 = 1
    ∧ (calculateSeasonalFactors seasonalHistory0).income 0
        ≠ claimedSeasonalFactorIncome seasonalHistory0 0
    ∧ (calculateSeasonalFactors seasonalHistory0).income 1 = 0
    ∧ claimedSeasonalFactorIncome seasonalHistory0 1 = 1 := by
  have h0 : (calculateSeasonalFactors seasonalHistory0).income 0 = 12 := by
    rw [calc_factors_income]
    simp only [overallMonthlyAvg_seasonalHistory0, histAvg_seasonalHistory0]
    norm_num
  have h1 : (calculateSeasonalFactors seasonalHistory0).income 1 = 0 := by
    rw [calc_factors_income]
    simp only [overallMonthlyAvg_seasonalHistory0, histAvg_seasonalHistory0]
    norm_num
  have hc0 : claimedSeasonalFactorIncome seasonalHistory0 0 = 1 := by
    rw [claimedSeasonalFactorIncome, overallHistAvg_seasonalHistory0]
    rw [if_pos (by simp [monthRowsAt, seasonalHistory0, List.filter])]
    rw [histAvg_seasonalHistory0]
    norm_num
  have hc1 : claimedSeasonalFactorIncome seasonalHistory0 1 = 1 := by
    rw [claimedSeasonalFactorIncome]
    rw [if_neg (by simp [monthRowsAt, seasonalHistory0, List.filter, Fin.ext_iff])]
  exact ⟨h0, hc0, by rw [h0, hc0]; norm_num, h1, hc1⟩

/-! ## Budget status re-evaluation (C2, C10) -/

/-- Utilization only reads `amount` and `currentPeriod.spent`, so the
pre-save update of `remaining` does not change it. -/
theorem utilization_update_remaining (b : Budget) (x : ℚ) :
    utilizationPercentage
        { b with currentPeriod := { b.currentPeriod with remaining := x } }
      = utilizationPercentage b := rfl

/-- Claim C2 (amended): on save, utilization at or above 100% forces the
status to `exceeded` regardless of the prior status — including a
user-requested `paused`; and a previously `exceeded` budget whose
utilization has dropped below 100% reverts to `active` provided the
wall-clock time is not past its end date (past the end date it becomes
`completed` instead). -/
theorem status_reevaluation_amended (b : Budget) (now : YMD) :
    (100 ≤ utilizationPercentage b → (budgetPreSave b now).status = BStatus.exceeded)
    ∧ (utilizationPercentage b < 100 → ymdSerial now ≤ ymdSerial b.endDate →
        b.status = BStatus.exceeded → (budgetPreSave b now).status = BStatus.active) := by
  constructor
  · intro h
    simp only [budgetPreSave, utilization_update_remaining]
    rw [if_pos h]
  · intro h1 h2 h3
    simp only [budgetPreSave, utilization_update_remaining]
    rw [if_neg (not_le.mpr h1), if_neg (by omega), if_pos ⟨h3, h1⟩]

/-- Witness for the amended C2: an `exceeded` budget edited back to 40%
utilization reverts to `active` on the next save. -/
theorem status_reevaluation_amended_witness :
    utilizationPercentage exceededEditedBudget < 100
    ∧ ymdSerial now0 ≤ ymdSerial exceededEditedBudget.endDate
    ∧ exceededEditedBudget.status = BStatus.exceeded
    ∧ (budgetPreSave exceededEditedBudget now0).status = BStatus.active := by
  have hu : utilizationPercentage exceededEditedBudget < 100 := by
    norm_num [utilizationPercentage, jsRound, exceededEditedBudget, baseBudget]
  have hd : ymdSerial now0 ≤ ymdSerial exceededEditedBudget.endDate := by
    norm_num [ymdSerial, now0, exceededEditedBudget, baseBudget]
  exact ⟨hu, hd, rfl,
    (status_reevaluation_amended exceededEditedBudget now0).2 hu hd rfl⟩

/-- Counterexample to C2 as stated: a `paused` budget whose utilization
reaches 100% is overridden to `exceeded` on save — the claimed exemption
for a user-requested `paused` status does not exist in the code. -/
theorem status_paused_counterexample :
    pausedSpentBudget.status = BStatus.paused
    ∧ 100 ≤ utilizationPercentage pausedSpentBudget
    ∧ (budgetPreSave pausedSpentBudget now0).status = BStatus.exceeded := by
  have hu : 100 ≤ utilizationPercentage pausedSpentBudget := by
    norm_num [utilizationPercentage, jsRound, pausedSpentBudget, baseBudget]
  refine ⟨rfl, hu, ?_⟩
  simp only [budgetPreSave, utilization_update_remaining]
  rw [if_pos hu]

/-- Claim C10: the derived utilization is 0 when the amount is 0 and
otherwise the half-up-rounded percentage; consequently the save-time
status check fires on the rounded value — `exceeded` exactly when
spent/amount rounds to at least 100%, i.e. when 199·amount ≤ 200·spent,
which includes points with spent strictly below amount. -/
theorem utilization_rounded_thresholds (b : Budget) (now : YMD) :
    (b.amount = 0 → utilizationPercentage b = 0)
    ∧ (b.amount ≠ 0 →
        utilizationPercentage b = jsRound (b.currentPeriod.spent / b.amount * 100))
    ∧ (0 < b.amount →
        ((budgetPreSave b now).status = BStatus.exceeded
          ↔ 199 * b.amount ≤ 200 * b.currentPeriod.spent)) := by
  refine ⟨fun h => by simp [utilizationPercentage, h], fun h => by simp [utilizationPercentage, h], ?_⟩
  intro ha
  have key : 100 ≤ utilizationPercentage b ↔ 199 * b.amount ≤ 200 * b.currentPeriod.spent := by
    rw [utilizationPercentage, if_neg (ne_of_gt ha), jsRound, Int.le_floor]
    push_cast
    rw [div_mul_eq_mul_div, ← sub_le_iff_le_add, le_div_iff₀ ha]
    constructor <;> intro h <;> linarith
  simp only [budgetPreSave, utilization_update_remaining]
  split_ifs with h1 h2 h3
  · simpa using key.mp h1
  · exact ⟨fun hcon => absurd hcon (by decide), fun hr => absurd (key.mpr hr) h1⟩
  · exact ⟨fun hcon => absurd hcon (by decide), fun hr => absurd (key.mpr hr) h1⟩
  · refine ⟨fun hcon => absurd ⟨hcon, ?_⟩ h3, fun hr => absurd (key.mpr hr) h1⟩
    omega
  -- in the final branch the status is unchanged and cannot be `exceeded`

/-- Witness for C10: spent 99.5 of 100 rounds to utilization 100 and the
budget is marked `exceeded` although spent is strictly below the amount. -/
theorem utilization_rounded_thresholds_witness :
    0 < almostSpentBudget.amount
    ∧ utilizationPercentage almostSpentBudget = 100
    ∧ (budgetPreSave almostSpentBudget now0).status = BStatus.exceeded
    ∧ almostSpentBudget.currentPeriod.spent < almostSpentBudget.amount := by
  have ha : 0 < almostSpentBudget.amount := by
    norm_num [almostSpentBudget, baseBudget]
  refine ⟨ha, ?_, ?_, ?_⟩
  · norm_num [utilizationPercentage, jsRound, almostSpentBudget, baseBudget]
  · exact ((utilization_rounded_thresholds almostSpentBudget now0).2.2 ha).mpr
      (by norm_num [almostSpentBudget, baseBudget])
  · norm_num [almostSpentBudget, baseBudget]

/-! ## Renewal preconditions and rollover (C4, C5) -/

/-- Claim C4 (amended): `renewForNextPeriod` itself returns `null` (and
touches nothing) exactly on disabled auto-renewal; the not-`completed`
precondition is enforced one layer up, by the renew route, which rejects
with `BUDGET_NOT_COMPLETED` before the method is ever called. -/
theorem renew_preconditions_amended (b : Budget) :
    (b.autoRenew.enabled = false → renewForNextPeriod b = none)
    ∧ (b.status ≠ BStatus.completed →
        renewRoute b = Except.error RenewError.budgetNotCompleted) := by
  constructor
  · intro h
    simp [renewForNextPeriod, h]
  · intro h
    simp [renewRoute, h]

/-- Witness for the amended C4: a disabled-auto-renew budget yields
`null`, and the route rejects a non-`completed` budget. -/
theorem renew_preconditions_amended_witness :
    renewForNextPeriod completedNoRenewBudget = none
    ∧ renewRoute activeAutoRenewBudget = Except.error RenewError.budgetNotCompleted :=
  ⟨(renew_preconditions_amended completedNoRenewBudget).1 rfl,
   (renew_preconditions_amended activeAutoRenewBudget).2 (by simp [activeAutoRenewBudget, baseBudget])⟩

/-- Counterexample to C4 as stated: the method happily renews a budget
that is not `completed` when auto-renewal is on — it returns a renewed
document (history grown by one) instead of the claimed `null` no-op. -/
theorem renew_noncompleted_counterexample :
    activeAutoRenewBudget.status = BStatus.active
    ∧ (renewForNextPeriod activeAutoRenewBudget).map (fun x => x.history.length)
        = some (activeAutoRenewBudget.history.length + 1) := by
  constructor
  · rfl
  · simp [renewForNextPeriod, activeAutoRenewBudget, baseBudget]

/-- Claim C5 (amended): when auto-renewal is enabled, the renewed
document's `currentPeriod` is exactly {spent 0, transactionCount 0,
remaining amount + rollover, rolloverAmount rollover}, where the carried
rollover requires BOTH `rollover.enabled` and `rollover.carryOverUnused`,
is computed as the unused part of the POST-adjustment amount (not the
closing period's amount when `adjustAmount` is on), and is capped by
`maxRolloverAmount` only when that cap is present and nonzero. -/
theorem renewal_rollover_amended (b : Budget) (h : b.autoRenew.enabled = true) :
    ∃ b', renewForNextPeriod b = some b'
      ∧ b'.amount = (if b.autoRenew.adjustAmount then
            b.amount + b.amount * b.autoRenew.adjustmentPercentage / 100 else b.amount)
      ∧ b'.currentPeriod.spent = 0
      ∧ b'.currentPeriod.transactionCount = 0
      ∧ b'.currentPeriod.remaining = b'.amount + b'.currentPeriod.rolloverAmount
      ∧ (¬(b.rollover.enabled = true ∧ b.rollover.carryOverUnused = true) →
          b'.currentPeriod.rolloverAmount = 0)
      ∧ (b.rollover.enabled = true → b.rollover.carryOverUnused = true →
          b'.currentPeriod.rolloverAmount =
            (match b.rollover.maxRolloverAmount with
             | some cap =>
                if cap = 0 then max 0 (b'.amount - b.currentPeriod.spent)
                else min (max 0 (b'.amount - b.currentPeriod.spent)) cap
             | none => max 0 (b'.amount - b.currentPeriod.spent))) := by
  simp only [renewForNextPeriod, h, Bool.not_true, Bool.false_eq_true, if_false]
  refine ⟨_, rfl, ?_, ?_, ?_, ?_, ?_, ?_⟩
  · by_cases hadj : b.autoRenew.adjustAmount <;> simp [hadj]
  · rfl
  · rfl
  · rfl
  · intro hno
    have : ¬(b.rollover.enabled = true ∧ b.rollover.carryOverUnused = true) := hno
    by_cases hadj : b.autoRenew.adjustAmount <;> simp [hadj, this]
  · intro hen hcar
    by_cases hadj : b.autoRenew.adjustAmount <;>
      rcases hcap : b.rollover.maxRolloverAmount with _ | cap <;>
      simp [hadj, hen, hcar, hcap]

/-- Witness for the amended C5: with rollover and carry-over on, a cap of
50 and 30 of 100 spent, renewal carries exactly 50 and resets remaining
to 150. -/
theorem renewal_rollover_amended_witness :
    cappedRolloverBudget.autoRenew.enabled = true
    ∧ (renewForNextPeriod cappedRolloverBudget).map
        (fun x => (x.currentPeriod.spent, x.currentPeriod.transactionCount,
          x.currentPeriod.remaining, x.currentPeriod.rolloverAmount))
        = some (0, 0, 150, 50) := by
  refine ⟨rfl, ?_⟩
  obtain ⟨b', hb', hamt, hsp, htc, hrem, _, hroll⟩ :=
    renewal_rollover_amended cappedRolloverBudget rfl
  have hamt' : b'.amount = 100 := by
    rw [hamt]
    norm_num [cappedRolloverBudget, baseBudget]
  have hroll' : b'.currentPeriod.rolloverAmount = 50 := by
    rw [hroll rfl rfl]
    have hcap : cappedRolloverBudget.rollover.maxRolloverAmount = some 50 := rfl
    rw [hcap, hamt']
    norm_num [cappedRolloverBudget, baseBudget, max_def, min_def]
  have hrem' : b'.currentPeriod.remaining = 150 := by
    rw [hrem, hamt', hroll']
    norm_num
  rw [hb']
  simp [hsp, htc, hrem', hroll']

/-- Counterexample to C5 as stated: with rollover enabled but
`carryOverUnused` off, the closing period's unused amount is 60 and the
claim predicts a carried rollover of 60, but the code carries 0. -/
theorem rollover_claim_counterexample :
    (renewForNextPeriod noCarryBudget).map (fun x => x.currentPeriod.rolloverAmount)
        = some 0
    ∧ claimedRollover noCarryBudget = 60
    ∧ (renewForNextPeriod noCarryBudget).map (fun x => x.currentPeriod.rolloverAmount)
        ≠ some (claimedRollover noCarryBudget) := by
  have h1 : (renewForNextPeriod noCarryBudget).map (fun x => x.currentPeriod.rolloverAmount)
      = some 0 := by
    simp [renewForNextPeriod, noCarryBudget, baseBudget]
  have h2 : claimedRollover noCarryBudget = 60 := by
    norm_num [claimedRollover, noCarryBudget, baseBudget]
  refine ⟨h1, h2, ?_⟩
  rw [h1, h2]
  norm_num

/-- Claim C9's code evaluated at the failing interleaving: two concurrent
`addTransaction(50)` flows that both load the document before either
saves persist spent = 50 — one update is lost, because the method writes
the whole record back rather than issuing an atomic increment.  The
serial schedule shows the intended 2 × 50. -/
theorem addTransaction_lost_update :
    runRace raceBudget 50 now0 lostUpdateSchedule = 50
    ∧ runRace raceBudget 50 now0 serialSchedule = 2 * 50
    ∧ runRace raceBudget 50 now0 lostUpdateSchedule
        ≠ runRace raceBudget 50 now0 serialSchedule := by
  have h1 : runRace raceBudget 50 now0 lostUpdateSchedule = 50 := by
    norm_num [runRace, raceStep, addTransaction, raceBudget, baseBudget,
      lostUpdateSchedule, Function.update]
  have h2 : runRace raceBudget 50 now0 serialSchedule = 2 * 50 := by
    norm_num [runRace, raceStep, addTransaction, raceBudget, baseBudget,
      serialSchedule, Function.update]
  exact ⟨h1, h2, by rw [h1, h2]; norm_num⟩

/-- Claim C1's code evaluated: for every history and every horizon of at
least one month, the simple moving-average strategy does not return
forecast points at all — its loop body evaluates the unbound identifier
`weightedIncome` and raises a `ReferenceError` (the trailing-6 averages
are computed but never used). -/
theorem simple_forecast_reference_error (monthlyData : List MonthRow) (months : Nat)
    (h : 1 ≤ months) :
    generateSimpleMovingAverageForecast monthlyData months
      = Except.error (JsError.referenceError "weightedIncome") := by
  obtain ⟨m, rfl⟩ : ∃ m, months = m + 1 := ⟨months - 1, by omega⟩
  rfl

/-- Witness for C1's failing evaluation at a concrete history and the
default horizon of 6 months. -/
theorem simple_forecast_reference_error_witness :
    1 ≤ 6
    ∧ generateSimpleMovingAverageForecast simpleHistory0 6
        = Except.error (JsError.referenceError "weightedIncome") :=
  ⟨by omega, simple_forecast_reference_error simpleHistory0 6 (by omega)⟩

/-- The zero-rate branch of the solver is the ceiling division. -/
theorem calculateTimeToGoal_zero_rate (lnDiv : ℚ → ℚ → JsNum) (remaining c : ℚ)
    (hc : 0 < c) :
    calculateTimeToGoal lnDiv remaining c 0
      = TimeToGoal.finite ⌈remaining / c⌉ (yearsOfMonths ⌈remaining / c⌉) := by
  simp only [calculateTimeToGoal, if_neg (not_le.mpr hc), if_pos rfl]
  exact if_pos trivial

/-- Claim C7: with a positive monthly contribution, a goal no larger than
the current amount returns zero months immediately, and with zero
interest the current scenario's months-to-goal is the ceiling of
remaining over contribution. -/
theorem savings_solver_base_cases (lnDiv : ℚ → ℚ → JsNum)
    (goalAmount currentAmount monthlyContribution interestRate : ℚ)
    (hc : 0 < monthlyContribution) :
    (goalAmount ≤ currentAmount →
      generateSavingsScenarios lnDiv goalAmount currentAmount monthlyContribution interestRate
        = SavingsScenarios.achieved "Goal already achieved!" (TimeToGoal.finite 0 0))
    ∧ (currentAmount < goalAmount → interestRate = 0 →
        currentScenarioTime
            (generateSavingsScenarios lnDiv goalAmount currentAmount monthlyContribution
              interestRate)
          = some (TimeToGoal.finite ⌈(goalAmount - currentAmount) / monthlyContribution⌉
              (yearsOfMonths ⌈(goalAmount - currentAmount) / monthlyContribution⌉))) := by
  constructor
  · intro h
    rw [generateSavingsScenarios, if_pos (by linarith : goalAmount - currentAmount ≤ 0)]
  · intro h hr
    subst hr
    have hrem : ¬(goalAmount - currentAmount ≤ 0) := by
      rw [not_le]
      linarith
    simp only [generateSavingsScenarios]
    rw [if_neg hrem]
    simp only [currentScenarioTime]
    have hrate : (0 : ℚ) / 100 / 12 = 0 := by norm_num
    rw [hrate, calculateTimeToGoal_zero_rate lnDiv _ _ hc]

/-- Witness for C7: remaining 1000 at contribution 100 and zero interest
solves to exactly 10 months. -/
theorem savings_solver_base_cases_witness :
    (0 : ℚ) < 100 ∧ (500 : ℚ) < 1500
    ∧ currentScenarioTime (generateSavingsScenarios lnDiv0 1500 500 100 0)
        = some (TimeToGoal.finite 10 (4 / 5)) := by
  have h := (savings_solver_base_cases lnDiv0 1500 500 100 0 (by norm_num)).2
    (by norm_num) rfl
  have hceil : (⌈((1500 : ℚ) - 500) / 100⌉ : ℤ) = 10 := by norm_num
  have hyears : yearsOfMonths 10 = 4 / 5 := by
    norm_num [yearsOfMonths, jsRound]
  rw [h, hceil, hyears]
  exact ⟨by norm_num, by norm_num, rfl⟩

/-- Claim C8: the degenerate solver inputs — non-positive contribution,
or annuity ratio at or below −1 — yield the infinite months object as
ordinary data, for every possible behaviour of the floating-point
logarithm (so no numeric error can surface from these inputs). -/
theorem savings_degenerate_infinite (lnDiv : ℚ → ℚ → JsNum)
    (remaining monthlyContribution monthlyRate : ℚ)
    (h : monthlyContribution ≤ 0
      ∨ (0 < monthlyContribution
          ∧ remaining * monthlyRate / monthlyContribution ≤ -1)) :
    calculateTimeToGoal lnDiv remaining monthlyContribution monthlyRate
      = TimeToGoal.infinite := by
  rcases h with h | ⟨hc, hr⟩
  · rw [calculateTimeToGoal, if_pos h]
  · have hrate : monthlyRate ≠ 0 := by
      rintro rfl
      rw [mul_zero, zero_div] at hr
      norm_num at hr
    rw [calculateTimeToGoal, if_neg (not_le.mpr hc), if_neg hrate, if_pos hr]

/-- Witness for C8 at a zero contribution. -/
theorem savings_degenerate_infinite_witness :
    (0 : ℚ) ≤ 0
    ∧ calculateTimeToGoal lnDiv0 1000 0 (1 / 100) = TimeToGoal.infinite :=
  ⟨le_refl 0, savings_degenerate_infinite lnDiv0 1000 0 (1 / 100) (Or.inl (le_refl 0))⟩

end Prosper
